import Mathlib

/-!
Verification development for the adleadagent repository: a shallow
embedding of the lead-qualification pipeline (qualification decision
engine, voice-flow TwiML generation, Redis-backed call state store,
Gmail poller deduplication, and the Celery tasks `process_lead`,
`finalize_lead_record`, `send_followup_sms`), with theorems settling
the behavioural claims about it.

Machine strings are modelled as Lean `String`s; Python substring tests
(`word in text`) are modelled by an explicit character-list infix
search, and `str.lower()` by `Char.toLower` over the character list
(the keyword patterns and answers involved are ASCII).
-/

/-- Character-list test: does the list start with the pattern?
Models the anchored comparison underlying Python substring search. -/
def leadsWith : List Char → List Char → Bool
  | [], _ => true
  | _ :: _, [] => false
  | p :: ps, c :: cs => p == c && leadsWith ps cs

/-- Substring test on character lists: `containsSub pat s` models the
Python expression `pat in s` for strings. -/
def containsSub (pat : List Char) : List Char → Bool
  | [] => pat.isEmpty
  | c :: cs => leadsWith pat (c :: cs) || containsSub pat cs

/-- String-level substring test: `strContainsStr s pat` models Python
`pat in s`. -/
def strContainsStr (s pat : String) : Bool :=
  containsSub pat.toList s.toList

/-- Lower-case a string into a character list; models `text.lower()`
for the ASCII strings handled by the qualification engine. -/
def lowerList (s : String) : List Char :=
  s.toList.map Char.toLower

/-- Python truthiness of a string: non-empty. -/
def nonEmptyStr (s : String) : Bool :=
  !(s == "")

/-- Qualification verdicts, from `LeadQualification` in app/models.py. -/
inductive LeadQualification
  | qualified
  | unqualified
  | no_answer
  | call_failed
  | pending
deriving DecidableEq, Repr

/-- The five captured answers, keyed q1..q5.  `finalize_lead_record`
(app/tasks.py lines 197-203) always builds this map with default ""
for missing fields, so a fixed five-field record is faithful. -/
structure Answers where
  q1 : String
  q2 : String
  q3 : String
  q4 : String
  q5 : String
deriving DecidableEq, Repr

/-- Python `any(answers.values())` from app/tasks.py line 285:
true when at least one answer string is non-empty. -/
def hasAnyAnswer (a : Answers) : Bool :=
  nonEmptyStr a.q1 || nonEmptyStr a.q2 || nonEmptyStr a.q3 ||
    nonEmptyStr a.q4 || nonEmptyStr a.q5

/-- Red-flag keyword list for q1 (years in business), app/tasks.py line 292. -/
def q1Flags : List String := ["0", "zero", "new", "just started", "starting"]

/-- Red-flag keyword list for q2 (number of employees), app/tasks.py line 297. -/
def q2Flags : List String := ["0", "zero", "none", "just me", "solo"]

/-- Red-flag keyword list for q3 (has clients), app/tasks.py line 302. -/
def q3Flags : List String := ["no", "not yet", "none", "don\x27t have"]

/-- Red-flag keyword list for q4 (budget), app/tasks.py line 307. -/
def q4Flags : List String := ["don\x27t know", "not sure", "no budget", "free"]

/-- Python `any(word in answer.lower() for word in flags)`. -/
def matchesAny (flags : List String) (answer : String) : Bool :=
  flags.any (fun w => containsSub w.toList (lowerList answer))

/-- The reason list accumulated by `_determine_qualification`
(app/tasks.py lines 288-308): one fixed reason string appended per
matched red-flag category, in the q1..q4 order of the source. -/
def redFlagReasons (a : Answers) : List String :=
  (if matchesAny q1Flags a.q1 then ["Less than 1 year in business"] else []) ++
  (if matchesAny q2Flags a.q2 then ["Solo entrepreneur (no team)"] else []) ++
  (if matchesAny q3Flags a.q3 then ["No current clients"] else []) ++
  (if matchesAny q4Flags a.q4 then ["No clear budget"] else [])

/-- Python `"; ".join(reasons)`. -/
def joinSemi : List String → String
  | [] => ""
  | [r] => r
  | r :: s :: rest => r ++ "; " ++ joinSemi (s :: rest)

/-- The fixed strong-fit reason string from app/tasks.py line 316. -/
def strongFitReason : String :=
  "Strong fit - established business with team and clients"

/-- Embedding of `_determine_qualification(answers, call_status)`
(app/tasks.py lines 274-316): guard on call status, guard on an
all-empty answer map, then the red-flag threshold policy. -/
def determine_qualification (a : Answers) (call_status : String) :
    LeadQualification × String :=
  if call_status ≠ "completed" then
    (.no_answer, "Call status: " ++ call_status)
  else if !hasAnyAnswer a then
    (.no_answer, "No answers recorded")
  else
    let reasons := redFlagReasons a
    if 3 ≤ reasons.length then
      (.unqualified, joinSemi reasons)
    else if 1 ≤ reasons.length then
      (.qualified, "Qualified with notes: " ++ joinSemi reasons)
    else
      (.qualified, strongFitReason)

/-- Scenario B answers from the spec (q5 absent, hence ""). -/
def scenarioB : Answers :=
  ⟨"10 years", "5 employees", "yes", "$2000/mo", ""⟩

/-- The all-empty answer map. -/
def emptyAnswers : Answers := ⟨"", "", "", "", ""⟩

/-- Question prompts, from `TwiMLGenerator.QUESTIONS`
(app/services/twilio_service.py lines 78-84); `.get` semantics. -/
def QUESTIONS (qid : String) : Option String :=
  if qid = "q1" then some "How many years have you been in business?"
  else if qid = "q2" then some "How many employees do you have?"
  else if qid = "q3" then some "Do you currently have clients?"
  else if qid = "q4" then some "What is your monthly budget for office space?"
  else if qid = "q5" then
    some "Do you want a private office or are you interested in coworking?"
  else none

/-- Where the no-input branch of a question response sends the call:
either a redirect back to the question webhook with an incremented
retry query parameter, or a redirect to the answer webhook with
skip=true (no speech result attached). -/
inductive NoInputFallback
  | reprompt (qid : String) (retry : Nat)
  | skipToAnswer (qid : String)
deriving DecidableEq, Repr

/-- Structured view of the TwiML emitted for a question: a Gather
whose action posts the answer for `qid` (carrying the retry count in
its query string), plus the no-input fallback; or a say-then-hangup
response for an unknown question id. -/
inductive TwiML
  | gatherQuestion (qid : String) (prompt : String)
      (answerActionRetry : Nat) (fb : NoInputFallback)
  | sayHangup (msg : String)
deriving DecidableEq, Repr

/-- Embedding of `TwiMLGenerator.ask_question(question_id, call_sid,
retry_count)` (app/services/twilio_service.py lines 100-139): unknown
question id hangs up; otherwise a Gather is emitted and the no-input
tail re-prompts when `retry_count < 1` and skips otherwise. -/
def ask_question (question_id : String) (retry_count : Nat) : TwiML :=
  match QUESTIONS question_id with
  | none => .sayHangup "Thank you for your time."
  | some qtext =>
    if retry_count < 1 then
      .gatherQuestion question_id qtext retry_count
        (.reprompt question_id (retry_count + 1))
    else
      .gatherQuestion question_id qtext retry_count
        (.skipToAnswer question_id)

/-- Embedding of the `/webhooks/twilio/question/{question_id}` handler
(app/main.py lines 139-151): the endpoint declares only the path
parameter, so the `retry` query parameter of the incoming request is
dropped and the generator is always invoked with its default
`retry_count = 0`. -/
def webhook_ask_question (question_id : String) (retryParam : Option Nat) :
    TwiML :=
  ask_question question_id 0

/-- Question ordering map from `TwiMLGenerator.next_question`
(app/services/twilio_service.py lines 147-153); `.get` returns none
both for q5 and for unknown ids. -/
def next_q (qid : String) : Option String :=
  if qid = "q1" then some "q2"
  else if qid = "q2" then some "q3"
  else if qid = "q3" then some "q4"
  else if qid = "q4" then some "q5"
  else none

/-- Result of `TwiMLGenerator.next_question`: a redirect to the next
question webhook, or the closing message plus hangup. -/
inductive NextTwiML
  | redirectToQuestion (qid : String)
  | closingHangup
deriving DecidableEq, Repr

/-- Embedding of `TwiMLGenerator.next_question(current_question_id)`
(app/services/twilio_service.py lines 141-169). -/
def next_question (current : String) : NextTwiML :=
  match next_q current with
  | some q2 => .redirectToQuestion q2
  | none => .closingHangup

/-- Embedding of the `/webhooks/twilio/answer/{question_id}` handler
(app/main.py lines 154-177) in the no-speech case: nothing is stored
(`if SpeechResult` is false) and `next_question` is returned. -/
def process_answer_no_speech (qid : String) : NextTwiML :=
  next_question qid

/-- Observable state of the voice flow between webhook round trips:
which question is being asked (with the retry query parameter the next
question request would carry), the closing message, or a hung-up call. -/
inductive FlowState
  | asking (qid : String) (retryParam : Option Nat)
  | closing
  | terminated
deriving DecidableEq, Repr

/-- One voice-flow round trip in which the caller produces no speech:
the question webhook emits its TwiML and the provider executes the
no-input tail of that response. -/
def stepEmpty : FlowState → FlowState
  | .asking qid rp =>
    match webhook_ask_question qid rp with
    | .gatherQuestion _ _ _ (.reprompt q n) => .asking q (some n)
    | .gatherQuestion _ _ _ (.skipToAnswer q) =>
      match process_answer_no_speech q with
      | .redirectToQuestion q2 => .asking q2 none
      | .closingHangup => .closing
    | .sayHangup _ => .terminated
  | .closing => .terminated
  | .terminated => .terminated

/-- Iterated empty-capture rounds. -/
def stepEmptyN : Nat → FlowState → FlowState
  | 0, s => s
  | n + 1, s => stepEmptyN n (stepEmpty s)

/-- Redis hash value for one key, together with its time-to-live in
hours (`none` when no expiry has been set on the key). -/
structure HashRec where
  fields : List (String × String)
  ttlHours : Option Nat
deriving DecidableEq, Repr

/-- The Redis keyspace: an association list from key to hash record. -/
abbrev RedisState : Type := List (String × HashRec)

/-- Key lookup in the modelled keyspace. -/
def lookupState (st : RedisState) (key : String) : Option HashRec :=
  match st.find? (fun p => p.1 == key) with
  | some p => some p.2
  | none => none

/-- Replace (or create) the record stored under a key. -/
def setState (st : RedisState) (key : String) (r : HashRec) : RedisState :=
  (key, r) :: st.filter (fun p => !(p.1 == key))

/-- Field lookup in a hash (`HGET`). -/
def hgetF (fields : List (String × String)) (k : String) : Option String :=
  match fields.find? (fun p => p.1 == k) with
  | some p => some p.2
  | none => none

/-- Field write in a hash (`HSET`): keeps every other field. -/
def hsetF (fields : List (String × String)) (k v : String) :
    List (String × String) :=
  (fields.filter (fun p => !(p.1 == k))) ++ [(k, v)]

/-- Embedding of `RedisClient.store_call_data(call_sid, data)`
(app/services/redis_client.py lines 41-47): each field of `data` is
HSET into the `call_data:` hash, then EXPIRE sets a 24-hour TTL. -/
def store_call_data (st : RedisState) (call_sid : String)
    (data : List (String × String)) : RedisState :=
  let key := "call_data:" ++ call_sid
  let r0 := (lookupState st key).getD ⟨[], none⟩
  let fs := data.foldl (fun acc kv => hsetF acc kv.1 kv.2) r0.fields
  setState st key ⟨fs, some 24⟩

/-- Embedding of `RedisClient.update_call_answer(call_sid, question_id,
answer)` (app/services/redis_client.py lines 55-58): a single HSET of
the `answer_` field; HSET creates the key when absent and never
touches the TTL. -/
def update_call_answer (st : RedisState) (call_sid question_id answer : String) :
    RedisState :=
  let key := "call_data:" ++ call_sid
  let r0 := (lookupState st key).getD ⟨[], none⟩
  setState st key ⟨hsetF r0.fields ("answer_" ++ question_id) answer, r0.ttlHours⟩

/-- Embedding of `RedisClient.get_call_data(call_sid)`
(app/services/redis_client.py lines 49-53): HGETALL yields an empty
mapping for a missing key and the method then returns None; the
operation is total (it never raises for an unknown call id). -/
def get_call_data (st : RedisState) (call_sid : String) :
    Option (List (String × String)) :=
  match lookupState st ("call_data:" ++ call_sid) with
  | none => none
  | some r => if r.fields.isEmpty then none else some r.fields

/-- TTL currently attached to a call's state record. -/
def callTTL (st : RedisState) (call_sid : String) : Option Nat :=
  match lookupState st ("call_data:" ++ call_sid) with
  | none => none
  | some r => r.ttlHours

/-- Operations the pipeline performs against one call's state record. -/
inductive CallOp
  | put (data : List (String × String))
  | setAnswer (qid ans : String)
deriving DecidableEq, Repr

/-- Apply a single call-state operation for the given call id. -/
def applyOp (sid : String) (st : RedisState) : CallOp → RedisState
  | .put d => store_call_data st sid d
  | .setAnswer q a2 => update_call_answer st sid q a2

/-- Apply a sequence of call-state operations, oldest first. -/
def applyOps (sid : String) (st : RedisState) (ops : List CallOp) : RedisState :=
  ops.foldl (applyOp sid) st

/-- Whether an operation sequence contains a `put` (a full
`store_call_data` write). -/
def hasPut (ops : List CallOp) : Bool :=
  ops.any (fun op => match op with | .put _ => true | .setAnswer _ _ => false)

/-- Embedding of `RedisClient.mark_email_processed(email_id)`
(app/services/redis_client.py lines 17-21): SETEX of the
`processed_email:` key (the 7-day TTL is not observed by any claim and
the marker set is modelled as the list of marked ids). -/
def mark_email_processed (marked : List String) (email_id : String) :
    List String :=
  email_id :: marked

/-- Embedding of `RedisClient.is_email_processed(email_id)`
(app/services/redis_client.py lines 23-26): EXISTS on the marker key. -/
def is_email_processed (marked : List String) (email_id : String) : Bool :=
  marked.contains email_id

/-- Poller state: the dedup-marker set plus the ids whose leads have
been enqueued to the intake task, in order. -/
structure PollState where
  marked : List String
  enqueued : List String
deriving DecidableEq, Repr

/-- Embedding of the per-email body of `poll_gmail` (poller.py lines
39-68), with `parse` standing for `gmail_service.parse_unbounce_email`
(true when a lead record is produced): an already-marked id is
skipped; a parse failure is skipped without marking; otherwise the id
is marked and the intake task `process_lead.delay` is enqueued. -/
def pollStep (parse : String → Bool) (st : PollState) (email_id : String) :
    PollState :=
  if is_email_processed st.marked email_id then st
  else if !(parse email_id) then st
  else ⟨mark_email_processed st.marked email_id, st.enqueued ++ [email_id]⟩

/-- Process a whole sequence of observed email ids. -/
def pollRun (parse : String → Bool) (st : PollState) (ids : List String) :
    PollState :=
  ids.foldl (pollStep parse) st

/-- The answer map built by `finalize_lead_record` (app/tasks.py lines
197-203) from the stored hash fields, default "". -/
def answersOf (fields : List (String × String)) : Answers :=
  ⟨(hgetF fields "answer_q1").getD "",
   (hgetF fields "answer_q2").getD "",
   (hgetF fields "answer_q3").getD "",
   (hgetF fields "answer_q4").getD "",
   (hgetF fields "answer_q5").getD ""⟩

/-- The `LeadRecord` as constructed by `finalize_lead_record`
(app/tasks.py lines 211-230).  Timestamps stay the stored ISO strings
(`datetime.fromisoformat` on a present string read back from the hash
is modelled as the identity; on a missing field it raises, which the
finalization embedding handles explicitly); the speed-to-lead field
keeps the stored string (float parsing is not observed by any claim). -/
structure FinalLeadRecord where
  name : String
  email : String
  phone : String
  office_space_interest : String
  message : Option String
  campaign_id : Option String
  call_sid : String
  call_status : String
  call_duration : Nat
  call_answers : Answers
  qualification_status : LeadQualification
  qualification_reason : String
  email_received_at : String
  call_initiated_at : String
  speed_to_lead_seconds : String
  page_name : String
  page_url : String
deriving DecidableEq, Repr

/-- Payload of the `send_followup_sms.delay` enqueue
(app/tasks.py lines 241-245). -/
structure FollowupMsg where
  phone : String
  name : String
  qualified : Bool
deriving DecidableEq, Repr

/-- Observable outcome of one run of the finalization task: its return
value, the CRM record it attempted to create (if it reached that
point), and the follow-up enqueue (if it reached that point). -/
structure FinalizeResult where
  retval : Bool
  crmAttempt : Option FinalLeadRecord
  followup : Option FollowupMsg
deriving DecidableEq, Repr

/-- Embedding of the Celery task `finalize_lead_record(call_sid,
call_status, call_duration)` (app/tasks.py lines 175-271).  `crmResult`
is the value returned by `airtable_service.create_lead_record`, which
catches its own exceptions and returns None on failure (app/services/
airtable_service.py lines 22-72); the task only logs that value.
A missing state record returns False.  A present record whose
`email_received_at` or `call_initiated_at` field is absent makes
`datetime.fromisoformat(None)` raise inside the LeadRecord
construction; the task's outer `except` catches it and returns False
before any CRM write or follow-up enqueue.  Otherwise the CRM write is
attempted and the follow-up is enqueued with
`qualified = (qualification_status == QUALIFIED)` whatever `crmResult`
is, and the task returns True. -/
def finalize_lead_record (st : RedisState) (crmResult : Option String)
    (call_sid call_status : String) (call_duration : Nat) : FinalizeResult :=
  match get_call_data st call_sid with
  | none => ⟨false, none, none⟩
  | some fields =>
    let answers := answersOf fields
    let q := determine_qualification answers call_status
    match hgetF fields "email_received_at", hgetF fields "call_initiated_at" with
    | some ert, some cit =>
      let lr : FinalLeadRecord :=
        { name := (hgetF fields "name").getD ""
          email := (hgetF fields "email").getD ""
          phone := (hgetF fields "phone").getD ""
          office_space_interest :=
            (hgetF fields "office_space_interest").getD "Other"
          message := hgetF fields "message"
          campaign_id := hgetF fields "campaign_id"
          call_sid := call_sid
          call_status := call_status
          call_duration := call_duration
          call_answers := answers
          qualification_status := q.1
          qualification_reason := q.2
          email_received_at := ert
          call_initiated_at := cit
          speed_to_lead_seconds := (hgetF fields "speed_to_lead_seconds").getD "0"
          page_name := (hgetF fields "page_name").getD "Mesh Cowork - Private Offices"
          page_url :=
            (hgetF fields "page_url").getD "http://tour.meshcowork.com/private-offices/" }
      ⟨true, some lr,
       some ⟨lr.phone, lr.name, decide (q.1 = LeadQualification.qualified)⟩⟩
    | _, _ => ⟨false, none, none⟩

/-- The SMS body chosen by `send_followup_sms` (app/tasks.py lines
128-140), parameterised by the configured scheduling link. -/
def followupMessage (calendly name : String) (qualified : Bool) : String :=
  if qualified then
    "Hi " ++ name ++ "! Thanks for speaking with us. " ++
      "Book your tour at Mesh Cowork here: " ++ calendly ++
      " We look forward to meeting you!"
  else
    "Hi " ++ name ++ "! Thanks for your interest in Mesh Cowork. " ++
      "While we may not be the perfect fit right now, feel free to reach out " ++
      "if your needs change. You can always book a tour: " ++ calendly

/-- The not-qualified follow-up template. -/
def notQualifiedMessage (calendly name : String) : String :=
  followupMessage calendly name false

/-- Normalized lead record consumed by the intake task (the
`lead_data` dict of app/tasks.py lines 21-112).  The intake timestamp
is modelled in epoch seconds; optional dict keys are `Option`s whose
defaults are applied at the `.get(key, default)` call sites. -/
structure LeadData where
  fname : String
  email : String
  phone : String
  office_interest : Option String
  message : Option String
  campaignid : Option String
  email_received_at : Int
  page_name : Option String
  page_url : Option String
deriving DecidableEq, Repr

/-- The `LeadRecord` persisted by `process_lead` on call-placement
failure (app/tasks.py lines 51-65); timestamps in epoch seconds as in
`LeadData`. -/
structure FailedCrmRecord where
  name : String
  email : String
  phone : String
  office_space_interest : String
  message : Option String
  campaign_id : Option String
  qualification_status : LeadQualification
  qualification_reason : String
  email_received_at : Int
  call_initiated_at : Int
  speed_to_lead_seconds : Int
  page_name : String
  page_url : String
deriving DecidableEq, Repr

/-- Observable outcome of one run of the intake task: its return
value, the CRM record written on the failure path, the call sid whose
state was stored on the success path, and how many outbound call
placements were attempted. -/
structure ProcessLeadResult where
  retval : String
  crmRecord : Option FailedCrmRecord
  storedCallSid : Option String
  callAttempts : Nat
deriving DecidableEq, Repr

/-- Embedding of the Celery task `process_lead(lead_data)`
(app/tasks.py lines 20-112).  `now` is `datetime.utcnow()` at call
initiation; `callResult` is the value returned by
`twilio_service.initiate_call`, which catches its own exceptions and
returns None on failure (app/services/twilio_service.py lines 21-43).
Exactly one call placement is attempted per run; on None the task
writes a CALL_FAILED record to the CRM with the computed speed to lead
and returns the sentinel "CALL_FAILED"; on a sid it stores the call
state and returns the sid. -/
def process_lead (ld : LeadData) (now : Int) (callResult : Option String) :
    ProcessLeadResult :=
  match callResult with
  | none =>
    ⟨"CALL_FAILED",
     some { name := ld.fname
            email := ld.email
            phone := ld.phone
            office_space_interest := ld.office_interest.getD "Other"
            message := ld.message
            campaign_id := ld.campaignid
            qualification_status := LeadQualification.call_failed
            qualification_reason := "Failed to initiate call"
            email_received_at := ld.email_received_at
            call_initiated_at := now
            speed_to_lead_seconds := now - ld.email_received_at
            page_name := ld.page_name.getD "Mesh Cowork - Private Offices"
            page_url := ld.page_url.getD "http://tour.meshcowork.com/private-offices/" },
     none, 1⟩
  | some sid => ⟨sid, none, some sid, 1⟩

/-- Scenario A answers from the spec (q5 absent, hence ""). -/
def scenarioA : Answers :=
  ⟨"just started", "solo", "no clients yet", "not sure", ""⟩

/-- A well-formed call-state payload as written by `process_lead`
(app/tasks.py lines 93-105), used to instantiate theorems. -/
def wfCallData : List (String × String) :=
  [("name", "Ann Lee"), ("email", "ann@example.com"), ("phone", "+15550100"),
   ("office_space_interest", "Private Office"), ("message", "hi"),
   ("campaign_id", "c1"), ("email_received_at", "2025-01-01T00:00:00"),
   ("call_initiated_at", "2025-01-01T00:00:30"),
   ("speed_to_lead_seconds", "30.0"), ("page_name", "P"), ("page_url", "U")]

/-- A keyspace holding one call record written by the intake task. -/
def stWF : RedisState := store_call_data [] "CA123" wfCallData

/-- A keyspace whose only record was created by `update_call_answer`
against a call id that had no existing record. -/
def stOrphan : RedisState := update_call_answer [] "CA9" "q1" "hello"

/-- Invariant carried through the poller loop for a fixed message id:
it has been enqueued at most once, and if it has been enqueued then
its dedup marker is set. -/
def PollInv (id : String) (st : PollState) : Prop :=
  st.enqueued.count id ≤ 1 ∧ (id ∈ st.enqueued → id ∈ st.marked)

/-- A list starts with itself. -/
theorem leadsWith_self (l : List Char) : leadsWith l l = true := by
  induction l with
  | nil => rfl
  | cons c cs ih => simp [leadsWith, ih]

/-- A pattern is found inside any string that ends with it. -/
theorem containsSub_append_self (pre pat : List Char) :
    containsSub pat (pre ++ pat) = true := by
  induction pre with
  | nil =>
    cases pat with
    | nil => rfl
    | cons c cs => simp [containsSub, leadsWith_self]
  | cons c pre ih =>
    simp [containsSub, ih]

/-- Character data of an appended string. -/
theorem toList_append_eq (s t : String) :
    (s ++ t).toList = s.toList ++ t.toList := by
  cases s; cases t; rfl

/-- C1 counterexample: with the call status "completed" and the
all-empty answer map, zero red-flag categories match, yet the decision
function does not return the qualified/strong-fit result (it returns
the no-answer verdict), refuting the claim as universally stated. -/
theorem C1_counterexample :
    (redFlagReasons emptyAnswers).length = 0 ∧
    determine_qualification emptyAnswers "completed" ≠
      (LeadQualification.qualified, strongFitReason) := by decide

/-- C1 (amended): for every answer map with at least one non-empty
answer and the call status "completed", the decision function returns
`unqualified` with the matched reasons joined when 3 or more red-flag
categories match, `qualified` with a reason prefixed "Qualified with
notes" when exactly 1 or 2 match, and `qualified` with the fixed
strong-fit reason when 0 match. -/
theorem C1_threshold_law_amended (a : Answers) (h : hasAnyAnswer a = true) :
    (3 ≤ (redFlagReasons a).length →
      determine_qualification a "completed" =
        (LeadQualification.unqualified, joinSemi (redFlagReasons a))) ∧
    ((redFlagReasons a).length = 1 ∨ (redFlagReasons a).length = 2 →
      determine_qualification a "completed" =
        (LeadQualification.qualified,
         "Qualified with notes: " ++ joinSemi (redFlagReasons a))) ∧
    ((redFlagReasons a).length = 0 →
      determine_qualification a "completed" =
        (LeadQualification.qualified, strongFitReason)) := by
  refine ⟨fun h3 => ?_, fun h12 => ?_, fun h0 => ?_⟩
  · simp [determine_qualification, h, h3]
  · have hn3 : ¬ 3 ≤ (redFlagReasons a).length := by omega
    have h1 : 1 ≤ (redFlagReasons a).length := by omega
    simp [determine_qualification, h, hn3, h1]
  · simp [determine_qualification, h, h0]

/-- C1 witness: the amended threshold law applied to the spec's
scenario A answers (four matched categories). -/
theorem C1_threshold_law_witness :
    determine_qualification scenarioA "completed" =
      (LeadQualification.unqualified,
       "Less than 1 year in business; Solo entrepreneur (no team); " ++
         "No current clients; No clear budget") :=
  ((C1_threshold_law_amended scenarioA (by decide)).1 (by decide)).trans
    (by decide)

/-- C6 counterexample: with status "completed" and all answers empty
the decision function's reason is "No answers recorded" (capital N),
not the claimed literal "no answers recorded". -/
theorem C6_counterexample :
    determine_qualification emptyAnswers "completed" =
      (LeadQualification.no_answer, "No answers recorded") ∧
    ("No answers recorded" : String) ≠ "no answers recorded" := by decide

/-- C6 (amended): the decision function returns verdict `no_answer`
iff the call status is not "completed" or all five answers are empty;
when the status is not "completed" the reason contains the raw status,
and when the status is "completed" with all answers empty the reason
is "No answers recorded". -/
theorem C6_no_answer_iff_amended (a : Answers) (s : String) :
    ((determine_qualification a s).1 = LeadQualification.no_answer ↔
      (s ≠ "completed" ∨ hasAnyAnswer a = false)) ∧
    (s ≠ "completed" →
      strContainsStr (determine_qualification a s).2 s = true) ∧
    (s = "completed" → hasAnyAnswer a = false →
      (determine_qualification a s).2 = "No answers recorded") := by
  refine ⟨?_, fun hs => ?_, fun hs ha => ?_⟩
  · by_cases hs : s = "completed"
    · subst hs
      by_cases ha : hasAnyAnswer a
      · simp [determine_qualification, ha]
        split
        · simp
        · split <;> simp
      · simp [determine_qualification, ha, Bool.not_eq_true] at ha ⊢
    · simp [determine_qualification, hs]
  · have hd : determine_qualification a s = (.no_answer, "Call status: " ++ s) := by
      simp [determine_qualification, hs]
    rw [hd]
    show strContainsStr ("Call status: " ++ s) s = true
    unfold strContainsStr
    rw [toList_append_eq]
    exact containsSub_append_self _ _
  · subst hs
    simp [determine_qualification, ha]

/-- C6 witness: the spec's scenario D — status "no-answer" with a
non-empty answer map gives the no-answer verdict and a reason
containing the literal status string. -/
theorem C6_no_answer_witness :
    (determine_qualification ⟨"hi", "", "", "", ""⟩ "no-answer").1 =
      LeadQualification.no_answer ∧
    strContainsStr (determine_qualification ⟨"hi", "", "", "", ""⟩ "no-answer").2
      "no-answer" = true :=
  ⟨(C6_no_answer_iff_amended ⟨"hi", "", "", "", ""⟩ "no-answer").1.mpr
      (Or.inl (by decide)),
   (C6_no_answer_iff_amended ⟨"hi", "", "", "", ""⟩ "no-answer").2.1 (by decide)⟩

/-- C7: evaluating the decision function at the spec's scenario B
answers with status "completed".  The claim (and the spec) expect zero
matched categories and the strong-fit reason, but the q1 keyword "0"
substring-matches "10 years", so the code matches one category and
returns the "Qualified with notes" reason instead — the code
contradicts its own intent (the comment says it looks for established
businesses, yet a ten-year-old business is flagged as less than one
year old). -/
theorem C7_scenario_b_code_eval :
    containsSub "0".toList (lowerList "10 years") = true ∧
    redFlagReasons scenarioB = ["Less than 1 year in business"] ∧
    determine_qualification scenarioB "completed" =
      (LeadQualification.qualified,
       "Qualified with notes: Less than 1 year in business") := by decide

/-- C2: the question webhook drops the `retry` query parameter
(app/main.py line 140 declares only the path parameter), so the
generator always runs with `retry_count = 0` and every no-input round
re-prompts the same question: from state q1, whatever retry parameter
the request carries, one empty capture leads back to asking q1, and
any positive number of empty-capture rounds still leaves the flow
asking q1 — it never advances to q2 and never records an empty
answer, contradicting the claimed retry-once-then-advance behaviour. -/
theorem C2_retry_loop_code_eval :
    (∀ rp : Option Nat,
      stepEmpty (.asking "q1" rp) = .asking "q1" (some 1)) ∧
    (∀ n : Nat,
      stepEmptyN (n + 1) (.asking "q1" none) = .asking "q1" (some 1)) := by
  have hstep : ∀ rp : Option Nat,
      stepEmpty (.asking "q1" rp) = .asking "q1" (some 1) := fun _ => rfl
  refine ⟨hstep, ?_⟩
  have hfix : ∀ n, stepEmptyN n (.asking "q1" (some 1)) = .asking "q1" (some 1) := by
    intro n
    induction n with
    | zero => rfl
    | succ n ih =>
      show stepEmptyN n (stepEmpty (.asking "q1" (some 1))) = _
      rw [hstep]
      exact ih
  intro n
  show stepEmptyN n (stepEmpty (.asking "q1" none)) = _
  rw [hstep]
  exact hfix n

/-- One poller step preserves the dedup invariant for any message id. -/
theorem pollStep_inv (parse : String → Bool) (id : String) (st : PollState)
    (e : String) (h : PollInv id st) : PollInv id (pollStep parse st e) := by
  unfold pollStep
  split
  · exact h
  · split
    · exact h
    · rename_i hmark hparse
      constructor
      · show (st.enqueued ++ [e]).count id ≤ 1
        rw [List.count_append]
        by_cases hid : id = e
        · subst hid
          have hnotin : id ∉ st.enqueued := by
            intro hin
            exact hmark (by simpa [is_email_processed] using h.2 hin)
          have hz : st.enqueued.count id = 0 := List.count_eq_zero.mpr hnotin
          simp [hz, List.count_cons]
        · have hz : ([e] : List String).count id = 0 := by
            simp [List.count_eq_zero]
            exact fun hh => hid hh
          have h1 := h.1
          omega
      · intro hin
        show id ∈ mark_email_processed st.marked e
        have hin' : id ∈ st.enqueued ∨ id ∈ ([e] : List String) := by
          simpa [List.mem_append] using hin
        unfold mark_email_processed
        rcases hin' with h1 | h2
        · exact List.mem_cons_of_mem _ (h.2 h1)
        · simp at h2
          subst h2
          exact List.mem_cons_self _ _

/-- A whole poller run preserves the dedup invariant. -/
theorem pollRun_inv (parse : String → Bool) (id : String) (ids : List String)
    (st : PollState) (h : PollInv id st) : PollInv id (pollRun parse st ids) := by
  induction ids generalizing st with
  | nil => exact h
  | cons e rest ih =>
    exact ih (pollStep parse st e) (pollStep_inv parse id st e h)

/-- C3: marking a message id makes `is_marked` true afterwards, and
over any sequence of observed email ids (duplicates included) starting
from an empty dedup store, the poller enqueues the intake task at most
once per source message id. -/
theorem C3_dedup_at_most_once :
    (∀ (marked : List String) (id : String),
      is_email_processed (mark_email_processed marked id) id = true) ∧
    (∀ (parse : String → Bool) (ids : List String) (id : String),
      ((pollRun parse ⟨[], []⟩ ids).enqueued.count id) ≤ 1) := by
  constructor
  · intro marked id
    simp [is_email_processed, mark_email_processed]
  · intro parse ids id
    have h0 : PollInv id ⟨[], []⟩ := by
      constructor
      · simp
      · intro hin
        simp at hin
    exact (pollRun_inv parse id ids ⟨[], []⟩ h0).1

/-- C4 counterexample: a call-state record created only by
`update_call_answer` (an answer webhook for a call id with no stored
record) is present — `get_call_data` returns it — yet finalization
on that call id returns False and enqueues no follow-up, because
`datetime.fromisoformat(None)` raises on the missing
`email_received_at` field, refuting the claim as universally stated
over all present call states. -/
theorem C4_counterexample :
    (get_call_data stOrphan "CA9").isSome = true ∧
    finalize_lead_record stOrphan none "CA9" "completed" 0 =
      ⟨false, none, none⟩ := by decide

/-- C4 (amended): for every finalization run whose call state is
present and carries the intake-received and call-initiated timestamp
fields (as every record written by the intake task does), the task
returns True, attempts the CRM write, and enqueues the follow-up with
the computed qualified flag — for every CRM outcome `crm`, including
the failure value none, which neither raises out of the task nor
prevents the enqueue. -/
theorem C4_followup_despite_crm_failure (st : RedisState) (crm : Option String)
    (sid status : String) (dur : Nat) (fields : List (String × String))
    (ert cit : String)
    (h1 : get_call_data st sid = some fields)
    (h2 : hgetF fields "email_received_at" = some ert)
    (h3 : hgetF fields "call_initiated_at" = some cit) :
    (finalize_lead_record st crm sid status dur).retval = true ∧
    (finalize_lead_record st crm sid status dur).followup =
      some ⟨(hgetF fields "phone").getD "", (hgetF fields "name").getD "",
            decide ((determine_qualification (answersOf fields) status).1 =
              LeadQualification.qualified)⟩ ∧
    ((finalize_lead_record st crm sid status dur).crmAttempt).isSome = true := by
  unfold finalize_lead_record
  rw [h1]
  simp [h2, h3]

/-- C4 witness: a record written by the intake task, finalized with a
failed CRM write (crm = none): the task succeeds and the follow-up is
enqueued. -/
theorem C4_followup_witness :
    (finalize_lead_record stWF none "CA123" "completed" 42).retval = true ∧
    (finalize_lead_record stWF none "CA123" "completed" 42).followup =
      some ⟨"+15550100", "Ann Lee", false⟩ ∧
    ((finalize_lead_record stWF none "CA123" "completed" 42).crmAttempt).isSome =
      true := by
  have h := C4_followup_despite_crm_failure stWF none "CA123" "completed" 42
    wfCallData "2025-01-01T00:00:00" "2025-01-01T00:00:30"
    (by decide) (by decide) (by decide)
  exact ⟨h.1, h.2.1.trans (by decide), h.2.2⟩

/-- C5: `get` on a call id with no stored record returns the absent
value (the operation is total, so it cannot raise), and finalization
on such a call id returns False with no CRM write attempt and no
follow-up enqueue. -/
theorem C5_state_miss_safe (st : RedisState) (crm : Option String)
    (sid status : String) (dur : Nat)
    (h : lookupState st ("call_data:" ++ sid) = none) :
    get_call_data st sid = none ∧
    finalize_lead_record st crm sid status dur = ⟨false, none, none⟩ := by
  have hg : get_call_data st sid = none := by
    unfold get_call_data
    rw [h]
  refine ⟨hg, ?_⟩
  unfold finalize_lead_record
  rw [hg]

/-- C5 witness: the empty keyspace and an unknown call id. -/
theorem C5_state_miss_witness :
    get_call_data ([] : RedisState) "CA404" = none ∧
    finalize_lead_record ([] : RedisState) (some "rec1") "CA404" "completed" 0 =
      ⟨false, none, none⟩ :=
  C5_state_miss_safe [] (some "rec1") "CA404" "completed" 0 (by decide)

/-- C8 counterexample: `update_call_answer` against a call id with no
existing record creates the record (HSET creates the key) but never
sets an expiry, so the record exists with no TTL and would persist
indefinitely, refuting the claim for that operation sequence. -/
theorem C8_counterexample :
    lookupState stOrphan ("call_data:" ++ "CA9") ≠ none ∧
    callTTL stOrphan "CA9" = none := by decide

/-- Looking up the key just written by `setState` yields that record. -/
theorem lookupState_setState (st : RedisState) (k : String) (r : HashRec) :
    lookupState (setState st k r) k = some r := by
  unfold lookupState setState
  simp [List.find?]

/-- `store_call_data` always leaves a 24-hour TTL on the record. -/
theorem callTTL_store (st : RedisState) (sid : String)
    (d : List (String × String)) :
    callTTL (store_call_data st sid d) sid = some 24 := by
  unfold callTTL store_call_data
  rw [lookupState_setState]

/-- `update_call_answer` preserves an existing 24-hour TTL. -/
theorem callTTL_update (st : RedisState) (sid q a2 : String)
    (h : callTTL st sid = some 24) :
    callTTL (update_call_answer st sid q a2) sid = some 24 := by
  unfold callTTL update_call_answer
  rw [lookupState_setState]
  unfold callTTL at h
  cases hl : lookupState st ("call_data:" ++ sid) with
  | none => rw [hl] at h; exact absurd h (by simp)
  | some r => rw [hl] at h; simp [hl]; exact h

/-- Any single call-state operation preserves a 24-hour TTL. -/
theorem callTTL_applyOp (sid : String) (st : RedisState) (op : CallOp)
    (h : callTTL st sid = some 24) :
    callTTL (applyOp sid st op) sid = some 24 := by
  cases op with
  | put d => exact callTTL_store st sid d
  | setAnswer q a2 => exact callTTL_update st sid q a2 h

/-- Any operation sequence preserves a 24-hour TTL. -/
theorem callTTL_applyOps (sid : String) (ops : List CallOp) (st : RedisState)
    (h : callTTL st sid = some 24) :
    callTTL (applyOps sid st ops) sid = some 24 := by
  induction ops generalizing st with
  | nil => exact h
  | cons op rest ih => exact ih (applyOp sid st op) (callTTL_applyOp sid st op h)

/-- After any operation sequence containing a put, the TTL is 24 hours. -/
theorem callTTL_hasPut (sid : String) (ops : List CallOp) (st : RedisState)
    (h : hasPut ops = true) :
    callTTL (applyOps sid st ops) sid = some 24 := by
  induction ops generalizing st with
  | nil => simp [hasPut] at h
  | cons op rest ih =>
    cases op with
    | put d =>
      by_cases hr : hasPut rest = true
      · exact ih (applyOp sid st (.put d)) hr
      · exact callTTL_applyOps sid rest _ (callTTL_store st sid d)
    | setAnswer q a2 =>
      have hr : hasPut rest = true := by
        simpa [hasPut] using h
      exact ih _ hr

/-- C8 (amended): after any sequence of call-state operations that
contains at least one put (a `store_call_data` write), the record's
TTL is set and is at most 24 hours; a `set_answer` against a call id
with no record, with no put, creates a record with no expiry. -/
theorem C8_ttl_amended (sid : String) (st : RedisState) (ops : List CallOp)
    (h : hasPut ops = true) :
    ∃ t, callTTL (applyOps sid st ops) sid = some t ∧ t ≤ 24 :=
  ⟨24, callTTL_hasPut sid ops st h, le_refl 24⟩

/-- C8 witness: an orphan answer write, then a put, then another
answer write, evaluated on the empty keyspace. -/
theorem C8_ttl_witness :
    ∃ t, callTTL
        (applyOps "CA1" []
          [CallOp.setAnswer "q1" "x", CallOp.put [("name", "A")],
           CallOp.setAnswer "q2" "y"]) "CA1" = some t ∧ t ≤ 24 :=
  C8_ttl_amended "CA1" []
    [CallOp.setAnswer "q1" "x", CallOp.put [("name", "A")],
     CallOp.setAnswer "q2" "y"] (by decide)

/-- C9: for every lead record and call-initiation time, when call
placement fails (the telephony provider returns None) the intake task
returns the sentinel "CALL_FAILED", attempts exactly one call
placement (no retry), and writes a CRM record whose qualification
status is `call_failed` with the computed speed to lead
(call-initiated minus intake-received, in seconds). -/
theorem C9_call_failed_record (ld : LeadData) (now : Int) :
    (process_lead ld now none).retval = "CALL_FAILED" ∧
    (process_lead ld now none).callAttempts = 1 ∧
    (process_lead ld now none).crmRecord =
      some { name := ld.fname
             email := ld.email
             phone := ld.phone
             office_space_interest := ld.office_interest.getD "Other"
             message := ld.message
             campaign_id := ld.campaignid
             qualification_status := LeadQualification.call_failed
             qualification_reason := "Failed to initiate call"
             email_received_at := ld.email_received_at
             call_initiated_at := now
             speed_to_lead_seconds := now - ld.email_received_at
             page_name := ld.page_name.getD "Mesh Cowork - Private Offices"
             page_url :=
               ld.page_url.getD "http://tour.meshcowork.com/private-offices/" } :=
  ⟨rfl, rfl, rfl⟩

/-- C10: whenever finalization enqueues a follow-up, its qualified
flag is true iff the computed verdict is exactly `qualified`; for the
`unqualified` and `no_answer` verdicts the flag is false, and in the
no-answer case the follow-up task's message is the not-qualified
template. -/
theorem C10_followup_flag_iff (st : RedisState) (crm : Option String)
    (sid status : String) (dur : Nat) (fields : List (String × String))
    (f : FollowupMsg)
    (h1 : get_call_data st sid = some fields)
    (h2 : (finalize_lead_record st crm sid status dur).followup = some f) :
    (f.qualified = true ↔
      (determine_qualification (answersOf fields) status).1 =
        LeadQualification.qualified) ∧
    ((determine_qualification (answersOf fields) status).1 =
        LeadQualification.unqualified → f.qualified = false) ∧
    ((determine_qualification (answersOf fields) status).1 =
        LeadQualification.no_answer →
      f.qualified = false ∧
      ∀ cal : String, followupMessage cal f.name f.qualified =
        notQualifiedMessage cal f.name) := by
  unfold finalize_lead_record at h2
  rw [h1] at h2
  cases he : hgetF fields "email_received_at" with
  | none => simp [he] at h2
  | some ert =>
    cases hc : hgetF fields "call_initiated_at" with
    | none => simp [he, hc] at h2
    | some cit =>
      simp [he, hc] at h2
      obtain rfl := h2.symm
      refine ⟨by simp, fun hu => ?_, fun hn => ?_⟩
      · show decide _ = false
        rw [hu]
        decide
      · constructor
        · show decide _ = false
          rw [hn]
          decide
        · intro cal
          show followupMessage cal _ (decide _) = _
          rw [hn]
          rfl

/-- C10 witness: a completed call with no captured answers — the
computed verdict is `no_answer`, the enqueued flag is false, and the
follow-up message is the not-qualified template. -/
theorem C10_followup_flag_witness :
    (⟨"+15550100", "Ann Lee", false⟩ : FollowupMsg).qualified = false ∧
    ∀ cal : String, followupMessage cal "Ann Lee" false =
      notQualifiedMessage cal "Ann Lee" := by
  have h := (C10_followup_flag_iff stWF none "CA123" "completed" 42 wfCallData
    ⟨"+15550100", "Ann Lee", false⟩ (by decide) (by decide)).2.2 (by decide)
  exact ⟨h.1, fun cal => h.2 cal⟩
